import Mathlib

/-!
Verification of the auto-audio-device-selector reconciliation engine.

This file gives a shallow embedding of the Rust sources and proves
properties of the embedded definitions.  Machine integers (`u32`, `u64`)
are modelled as `Nat`: the embedded code only compares and takes maxima of
weights and times, so no overflow behaviour is observable.  Rust `Instant`
values are modelled as `Nat` milliseconds; `Instant::duration_since`
saturates at zero, matching `Nat` subtraction.  Rust `String` is modelled
as Lean `String` with substring, prefix and suffix tests over the
character list.
-/

namespace AudioMonitor

/-! ### String primitives (models of Rust `str` methods) -/

/-- Model of `str::contains` restricted to string patterns: `pat` occurs as a
contiguous substring of the haystack.  Defined by recursion on the haystack. -/
def charsContains (pat : List Char) : List Char → Bool
  | [] => pat.isEmpty
  | c :: t => pat.isPrefixOf (c :: t) || charsContains pat t

/-- `strContains hay pat` models Rust `hay.contains(pat)`. -/
def strContains (hay pat : String) : Bool :=
  charsContains pat.data hay.data

/-- `strStarts hay pat` models Rust `hay.starts_with(pat)`. -/
def strStarts (hay pat : String) : Bool :=
  pat.data.isPrefixOf hay.data

/-- `strEnds hay pat` models Rust `hay.ends_with(pat)`. -/
def strEnds (hay pat : String) : Bool :=
  pat.data.reverse.isPrefixOf hay.data.reverse

/-- Model of `str::to_lowercase` by character-wise lowering. -/
def strToLower (s : String) : String :=
  String.mk (s.data.map Char.toLower)

/-- Model of `str::trim`: strip leading and trailing whitespace. -/
def strTrim (s : String) : String :=
  String.mk
    (((s.data.dropWhile Char.isWhitespace).reverse.dropWhile
      Char.isWhitespace).reverse)

/-! ### Data model (src/audio/device.rs, src/config/types.rs) -/

/-- `DeviceType` from src/audio/device.rs. -/
inductive DeviceType where
  | Input
  | Output
  | InputOutput
deriving DecidableEq, Repr

/-- `AudioDevice` from src/audio/device.rs. -/
structure AudioDevice where
  id : String
  name : String
  device_type : DeviceType
  is_default : Bool
  is_available : Bool
  uid : Option String
deriving DecidableEq, Repr

/-- `MatchType` from src/config/types.rs. -/
inductive MatchType where
  | Exact
  | Contains
  | StartsWith
  | EndsWith
  | Regex
deriving DecidableEq, Repr

/-- `DeviceRule` from src/config/types.rs. -/
structure DeviceRule where
  name : String
  weight : Nat
  match_type : MatchType
  enabled : Bool
deriving DecidableEq, Repr

/-- `DeviceRule::matches` from src/config/types.rs.  A disabled rule never
matches; `Regex` falls back to `Contains` semantics in the source. -/
def DeviceRule.matches (r : DeviceRule) (deviceName : String) : Bool :=
  if r.enabled = false then false
  else
    match r.match_type with
    | MatchType.Exact => decide (deviceName = r.name)
    | MatchType.Contains => strContains deviceName r.name
    | MatchType.StartsWith => strStarts deviceName r.name
    | MatchType.EndsWith => strEnds deviceName r.name
    | MatchType.Regex => strContains deviceName r.name

/-! ### Priority resolver (src/priority/manager.rs) -/

/-- One step of the inner rule loop of `find_best_device`: the accumulator is
the pair (best_device, best_weight), updated when a rule matches with a
strictly larger weight. -/
def ruleStep (device : AudioDevice) (acc : Option AudioDevice × Nat)
    (rule : DeviceRule) : Option AudioDevice × Nat :=
  if rule.matches device.name = true ∧ acc.2 < rule.weight then
    (some device, rule.weight)
  else acc

/-- One step of the outer device loop of `find_best_device`. -/
def deviceStep (priorities : List DeviceRule) (acc : Option AudioDevice × Nat)
    (device : AudioDevice) : Option AudioDevice × Nat :=
  priorities.foldl (ruleStep device) acc

/-- The full (best_device, best_weight) state computed by
`DevicePriorityManager::find_best_device` in src/priority/manager.rs,
starting from `(None, 0)`. -/
def findBestState (devices : List AudioDevice) (priorities : List DeviceRule) :
    Option AudioDevice × Nat :=
  devices.foldl (deviceStep priorities) (none, 0)

/-- `DevicePriorityManager::find_best_device`: returns the best device. -/
def find_best_device (devices : List AudioDevice) (priorities : List DeviceRule) :
    Option AudioDevice :=
  (findBestState devices priorities).1

/-- `DevicePriorityManager` state from src/priority/manager.rs. -/
structure DevicePriorityManager where
  output_priorities : List DeviceRule
  input_priorities : List DeviceRule
  current_output : Option String
  current_input : Option String
deriving DecidableEq, Repr

/-- `DevicePriorityManager::find_best_output_device`. -/
def DevicePriorityManager.find_best_output_device (m : DevicePriorityManager)
    (availableDevices : List AudioDevice) : Option AudioDevice :=
  find_best_device availableDevices m.output_priorities

/-- `DevicePriorityManager::find_best_input_device`. -/
def DevicePriorityManager.find_best_input_device (m : DevicePriorityManager)
    (availableDevices : List AudioDevice) : Option AudioDevice :=
  find_best_device availableDevices m.input_priorities

/-- `DevicePriorityManager::should_switch_output`. -/
def DevicePriorityManager.should_switch_output (m : DevicePriorityManager)
    (newDevice : AudioDevice) : Bool :=
  match m.current_output with
  | some current => decide (current ≠ newDevice.name)
  | none => true

/-- `DevicePriorityManager::should_switch_input`. -/
def DevicePriorityManager.should_switch_input (m : DevicePriorityManager)
    (newDevice : AudioDevice) : Bool :=
  match m.current_input with
  | some current => decide (current ≠ newDevice.name)
  | none => true

/-- Specification-side score of a candidate name: the maximum weight of a rule
in `priorities` that matches the name (0 when no rule matches). -/
def maxMatchWeight (priorities : List DeviceRule) (name : String) : Nat :=
  ((priorities.filter (fun r => r.matches name)).map (fun r => r.weight)).foldr max 0

/-- Specification-side maximum score over a candidate list. -/
def maxScore (priorities : List DeviceRule) (devices : List AudioDevice) : Nat :=
  (devices.map (fun d => maxMatchWeight priorities d.name)).foldr max 0

/-! ### Characterization of the resolver fold -/

theorem maxMatchWeight_nil (name : String) : maxMatchWeight [] name = 0 := rfl

theorem maxMatchWeight_cons (r : DeviceRule) (rs : List DeviceRule) (name : String) :
    maxMatchWeight (r :: rs) name =
      if r.matches name = true then max r.weight (maxMatchWeight rs name)
      else maxMatchWeight rs name := by
  by_cases h : r.matches name = true <;> simp [maxMatchWeight, h]

theorem maxScore_nil (priorities : List DeviceRule) : maxScore priorities [] = 0 := rfl

theorem maxScore_cons (priorities : List DeviceRule) (d : AudioDevice)
    (ds : List AudioDevice) :
    maxScore priorities (d :: ds) =
      max (maxMatchWeight priorities d.name) (maxScore priorities ds) := rfl

/-- The inner rule loop computes the running maximum of matching weights; the
best device is replaced exactly when the current device strictly improves it. -/
theorem deviceStep_eq (dev : AudioDevice) (priorities : List DeviceRule) :
    ∀ p : Option AudioDevice × Nat,
      deviceStep priorities p dev =
        (if p.2 < maxMatchWeight priorities dev.name then some dev else p.1,
         max p.2 (maxMatchWeight priorities dev.name)) := by
  induction priorities with
  | nil =>
    intro p
    simp [deviceStep, maxMatchWeight_nil]
  | cons r rs ih =>
    intro p
    have hstep : deviceStep (r :: rs) p dev = deviceStep rs (ruleStep dev p r) dev := rfl
    rw [hstep, ih (ruleStep dev p r), maxMatchWeight_cons]
    by_cases h1 : r.matches dev.name = true
    · by_cases h2 : p.2 < r.weight
      · have hr : ruleStep dev p r = (some dev, r.weight) := by
          simp [ruleStep, h1, h2]
        rw [hr]
        have hlt : p.2 < max r.weight (maxMatchWeight rs dev.name) := by
          omega
        rw [if_pos h1, if_pos hlt]
        refine Prod.ext ?_ ?_
        · simp
        · simp
          omega
      · have hr : ruleStep dev p r = p := by
          simp [ruleStep, h1, h2]
        rw [hr, if_pos h1]
        have hcond : (p.2 < max r.weight (maxMatchWeight rs dev.name)) ↔
            (p.2 < maxMatchWeight rs dev.name) := by
          omega
        refine Prod.ext ?_ ?_
        · simp [hcond]
        · simp
          omega
    · have hr : ruleStep dev p r = p := by
        simp [ruleStep, h1]
      rw [hr, if_neg h1]

/-- The outer device loop returns the running maximum of scores, and the first
device attaining the overall maximum when that maximum improves on the seed. -/
theorem findFold_eq (priorities : List DeviceRule) :
    ∀ (devices : List AudioDevice) (p : Option AudioDevice × Nat),
      devices.foldl (deviceStep priorities) p =
        (if p.2 < maxScore priorities devices then
           devices.find?
             (fun d => maxMatchWeight priorities d.name == maxScore priorities devices)
         else p.1,
         max p.2 (maxScore priorities devices)) := by
  intro devices
  induction devices with
  | nil =>
    intro p
    simp [maxScore_nil]
  | cons d ds ih =>
    intro p
    have hstep : (d :: ds).foldl (deviceStep priorities) p =
        ds.foldl (deviceStep priorities) (deviceStep priorities p d) := rfl
    rw [hstep, ih (deviceStep priorities p d), deviceStep_eq d priorities p]
    by_cases hA : max p.2 (maxMatchWeight priorities d.name) < maxScore priorities ds
    · have hM : maxScore priorities (d :: ds) = maxScore priorities ds := by
        rw [maxScore_cons]; omega
      have hlt2 : p.2 < maxScore priorities ds := by omega
      have hdne : (maxMatchWeight priorities d.name ==
          maxScore priorities ds) = false := by
        simp only [beq_eq_false_iff_ne, ne_eq]
        omega
      refine Prod.ext ?_ ?_
      · simp only [if_pos hA, hM, if_pos hlt2, List.find?_cons, hdne]
      · simp only [hM]
        omega
    · by_cases hB : p.2 < maxMatchWeight priorities d.name
      · have hM : maxScore priorities (d :: ds) = maxMatchWeight priorities d.name := by
          rw [maxScore_cons]; omega
        have hlt : p.2 < maxScore priorities (d :: ds) := by omega
        have hdeq : (maxMatchWeight priorities d.name ==
            maxScore priorities (d :: ds)) = true := by
          rw [hM, beq_iff_eq]
        refine Prod.ext ?_ ?_
        · simp only [if_neg hA, if_pos hB, if_pos hlt, List.find?_cons, hdeq]
        · simp only [maxScore_cons]
          omega
      · have hge : ¬ p.2 < maxScore priorities (d :: ds) := by
          rw [maxScore_cons]; omega
        refine Prod.ext ?_ ?_
        · simp only [if_neg hA, if_neg hB, if_neg hge]
        · simp only [maxScore_cons]
          omega

/-- Closed form of `find_best_device`: `none` when no positive score exists,
otherwise the first candidate attaining the maximum score. -/
theorem find_best_device_char (devices : List AudioDevice)
    (priorities : List DeviceRule) :
    find_best_device devices priorities =
      (if 0 < maxScore priorities devices then
        devices.find?
          (fun d => maxMatchWeight priorities d.name == maxScore priorities devices)
      else none) := by
  have h := findFold_eq priorities devices (none, 0)
  have : find_best_device devices priorities =
      (devices.foldl (deviceStep priorities) (none, 0)).1 := rfl
  rw [this, h]

/-- The best-weight component of the fold equals the maximum score. -/
theorem findBestState_snd (devices : List AudioDevice)
    (priorities : List DeviceRule) :
    (findBestState devices priorities).2 = maxScore priorities devices := by
  have h := findFold_eq priorities devices (none, 0)
  have : (findBestState devices priorities).2 =
      (devices.foldl (deviceStep priorities) (none, 0)).2 := rfl
  rw [this, h]
  simp

/-- A maximum over a list of naturals is zero or is attained by an element. -/
theorem foldr_max_attained (l : List Nat) :
    l.foldr max 0 = 0 ∨ l.foldr max 0 ∈ l := by
  induction l with
  | nil => exact Or.inl rfl
  | cons a t ih =>
    rcases Nat.le_total a (t.foldr max 0) with h | h
    · rcases ih with h0 | hmem
      · rcases Nat.eq_zero_of_le_zero (h0 ▸ h) with rfl
        simp_all
      · right
        have : (a :: t).foldr max 0 = t.foldr max 0 := by
          simp [Nat.max_eq_right h]
        rw [this]
        exact List.mem_cons_of_mem _ hmem
    · right
      have : (a :: t).foldr max 0 = a := by
        simp [Nat.max_eq_left h]
      rw [this]
      exact List.mem_cons_self _ _

theorem matches_enabled (r : DeviceRule) (name : String)
    (h : r.matches name = true) : r.enabled = true := by
  by_cases he : r.enabled = false
  · simp [DeviceRule.matches, he] at h
  · simpa using he

theorem maxMatchWeight_pos_attained (priorities : List DeviceRule) (name : String)
    (h : 0 < maxMatchWeight priorities name) :
    ∃ r ∈ priorities, r.matches name = true ∧
      r.weight = maxMatchWeight priorities name := by
  rcases foldr_max_attained
      ((priorities.filter (fun r => r.matches name)).map (fun r => r.weight)) with h0 | hmem
  · exfalso
    have : maxMatchWeight priorities name = 0 := h0
    omega
  · rcases List.mem_map.mp hmem with ⟨r, hrmem, hrw⟩
    rcases List.mem_filter.mp hrmem with ⟨hrp, hrm⟩
    exact ⟨r, hrp, hrm, hrw⟩

theorem le_maxMatchWeight (priorities : List DeviceRule) (name : String)
    (r : DeviceRule) (hr : r ∈ priorities) (hm : r.matches name = true) :
    r.weight ≤ maxMatchWeight priorities name := by
  induction priorities with
  | nil => cases hr
  | cons q qs ih =>
    rcases List.mem_cons.mp hr with rfl | hmem
    · rw [maxMatchWeight_cons, if_pos hm]
      omega
    · have := ih hmem
      rw [maxMatchWeight_cons]
      by_cases hq : q.matches name = true <;> simp [hq] <;> omega

theorem le_maxScore (priorities : List DeviceRule) (devices : List AudioDevice)
    (d : AudioDevice) (hd : d ∈ devices) :
    maxMatchWeight priorities d.name ≤ maxScore priorities devices := by
  induction devices with
  | nil => cases hd
  | cons c cs ih =>
    rcases List.mem_cons.mp hd with rfl | hmem
    · rw [maxScore_cons]; omega
    · have := ih hmem
      rw [maxScore_cons]
      omega

theorem maxScore_pos_attained (priorities : List DeviceRule)
    (devices : List AudioDevice) (h : 0 < maxScore priorities devices) :
    ∃ d ∈ devices, maxMatchWeight priorities d.name = maxScore priorities devices := by
  rcases foldr_max_attained (devices.map (fun d => maxMatchWeight priorities d.name))
      with h0 | hmem
  · exfalso
    have : maxScore priorities devices = 0 := h0
    omega
  · rcases List.mem_map.mp hmem with ⟨d, hdmem, hdw⟩
    exact ⟨d, hdmem, hdw⟩

/-- Correctness of `find_best_device`: a returned device is matched by an
enabled rule, is credited the maximum score, and is the first candidate of the
input list attaining that score. -/
theorem find_best_device_correct (devices : List AudioDevice)
    (priorities : List DeviceRule) (d : AudioDevice)
    (h : find_best_device devices priorities = some d) :
    (∃ r ∈ priorities, r.enabled = true ∧ r.matches d.name = true) ∧
    (findBestState devices priorities).2 = maxScore priorities devices ∧
    devices.find?
      (fun c => maxMatchWeight priorities c.name == maxScore priorities devices) =
      some d := by
  rw [find_best_device_char] at h
  by_cases hM : 0 < maxScore priorities devices
  · rw [if_pos hM] at h
    refine ⟨?_, findBestState_snd devices priorities, h⟩
    have hpd := List.find?_some h
    have hdw : maxMatchWeight priorities d.name = maxScore priorities devices := by
      simpa [beq_iff_eq] using hpd
    have hpos : 0 < maxMatchWeight priorities d.name := by omega
    rcases maxMatchWeight_pos_attained priorities d.name hpos with ⟨r, hr, hrm, _⟩
    exact ⟨r, hr, matches_enabled r d.name hrm, hrm⟩
  · rw [if_neg hM] at h
    cases h

/-- `find_best_device` returns `none` exactly when every matching rule over all
candidates has weight zero (in particular, when no rule matches at all). -/
theorem find_best_none_iff (devices : List AudioDevice)
    (priorities : List DeviceRule) :
    find_best_device devices priorities = none ↔
      ∀ d ∈ devices, ∀ r ∈ priorities, r.matches d.name = true → r.weight = 0 := by
  rw [find_best_device_char]
  constructor
  · intro h d hd r hr hm
    by_cases hM : 0 < maxScore priorities devices
    · exfalso
      rw [if_pos hM] at h
      rcases maxScore_pos_attained priorities devices hM with ⟨c, hc, hcw⟩
      have hex : ∃ x ∈ devices,
          (fun c => maxMatchWeight priorities c.name ==
            maxScore priorities devices) x = true := ⟨c, hc, by simp [hcw]⟩
      have hsome := List.find?_isSome.mpr hex
      rw [h] at hsome
      simp at hsome
    · have hM0 : maxScore priorities devices = 0 := by omega
      have h1 := le_maxScore priorities devices d hd
      have h2 := le_maxMatchWeight priorities d.name r hr hm
      omega
  · intro hall
    have hM0 : maxScore priorities devices = 0 := by
      by_contra hne
      have hM : 0 < maxScore priorities devices := Nat.pos_of_ne_zero hne
      rcases maxScore_pos_attained priorities devices hM with ⟨c, hc, hcw⟩
      have hpos : 0 < maxMatchWeight priorities c.name := by omega
      rcases maxMatchWeight_pos_attained priorities c.name hpos with ⟨r, hr, hrm, hrw⟩
      have := hall c hc r hr hrm
      omega
    rw [if_neg (by omega)]

/-! ### Example data for witnesses and counterexamples -/

/-- Example rule: AirPods, weight 200, contains, enabled. -/
def ruleAir : DeviceRule := ⟨"AirPods", 200, MatchType.Contains, true⟩

/-- Example rule: MacBook, weight 10, contains, enabled. -/
def ruleMac : DeviceRule := ⟨"MacBook", 10, MatchType.Contains, true⟩

/-- Example enabled rule whose weight is zero. -/
def ruleZero : DeviceRule := ⟨"A", 0, MatchType.Contains, true⟩

/-- Example built-in output device. -/
def devSpeakers : AudioDevice :=
  ⟨"37", "MacBook Pro Speakers", DeviceType.Output, false, true, none⟩

/-- Example wireless output device. -/
def devAir : AudioDevice :=
  ⟨"55", "AirPods Pro", DeviceType.Output, false, true, none⟩

/-- Example device whose name is matched by `ruleZero`. -/
def devA0 : AudioDevice := ⟨"1", "A", DeviceType.Output, false, true, none⟩

/-- Example duplex (input and output) device. -/
def devDuet : AudioDevice :=
  ⟨"9", "Duet USB", DeviceType.InputOutput, false, true, none⟩

/-- Example Bluetooth output endpoint. -/
def devBtOut : AudioDevice :=
  ⟨"70", "AirPods Pro - Output", DeviceType.Output, false, true, none⟩

/-- Example Bluetooth input endpoint paired with `devBtOut`. -/
def devBtIn : AudioDevice :=
  ⟨"71", "AirPods Pro - Input", DeviceType.Input, false, true, none⟩

/-- Example priority manager. -/
def mgrEx : DevicePriorityManager := ⟨[ruleAir, ruleMac], [ruleAir], none, none⟩

/-- Priority manager whose only rule is enabled with weight zero. -/
def mgrZero : DevicePriorityManager := ⟨[ruleZero], [ruleZero], none, none⟩

/-! ### C1 -/

/-- C1: if `find_best_output_device` (or `find_best_input_device`) returns
`some d`, then some enabled rule matches the name of `d`, the best weight
credited by the fold equals the maximum over all candidates of the maximum
weight of a matching rule (matching rules are always enabled), and `d` is the
first candidate of the input list attaining that maximum. -/
theorem C1_find_best_first_max (m : DevicePriorityManager)
    (devices : List AudioDevice) (d : AudioDevice) :
    (m.find_best_output_device devices = some d →
      (∃ r ∈ m.output_priorities, r.enabled = true ∧ r.matches d.name = true) ∧
      (findBestState devices m.output_priorities).2 =
        maxScore m.output_priorities devices ∧
      devices.find? (fun c => maxMatchWeight m.output_priorities c.name ==
        maxScore m.output_priorities devices) = some d) ∧
    (m.find_best_input_device devices = some d →
      (∃ r ∈ m.input_priorities, r.enabled = true ∧ r.matches d.name = true) ∧
      (findBestState devices m.input_priorities).2 =
        maxScore m.input_priorities devices ∧
      devices.find? (fun c => maxMatchWeight m.input_priorities c.name ==
        maxScore m.input_priorities devices) = some d) :=
  ⟨fun h => find_best_device_correct devices m.output_priorities d h,
   fun h => find_best_device_correct devices m.input_priorities d h⟩

/-- C1 witness: evaluation at a concrete manager and device list. -/
theorem C1_witness :
    (∃ r ∈ mgrEx.output_priorities, r.enabled = true ∧
      r.matches devAir.name = true) ∧
    (findBestState [devSpeakers, devAir] mgrEx.output_priorities).2 =
      maxScore mgrEx.output_priorities [devSpeakers, devAir] ∧
    [devSpeakers, devAir].find?
      (fun c => maxMatchWeight mgrEx.output_priorities c.name ==
        maxScore mgrEx.output_priorities [devSpeakers, devAir]) = some devAir :=
  (C1_find_best_first_max mgrEx [devSpeakers, devAir] devAir).1 (by decide)

/-! ### C2 -/

/-- C2 counterexample: an enabled rule of weight zero matches the only
device, yet `find_best_output_device` returns `none`, refuting the claimed
equivalence with "no enabled rule matches any device". -/
theorem C2_counterexample :
    ruleZero.enabled = true ∧ ruleZero.matches devA0.name = true ∧
    mgrZero.find_best_output_device [devA0] = none := by
  refine ⟨rfl, by decide, by decide⟩

/-- C2 (amended): `find_best_output_device` (and symmetrically
`find_best_input_device`) returns `none` if and only if every enabled rule
matching the name of some listed device has weight zero; equivalently, a
device is returned exactly when some enabled rule of positive weight matches
some listed device. -/
theorem C2_find_best_none_iff_all_zero (m : DevicePriorityManager)
    (devices : List AudioDevice) :
    (m.find_best_output_device devices = none ↔
      ∀ d ∈ devices, ∀ r ∈ m.output_priorities,
        r.matches d.name = true → r.weight = 0) ∧
    (m.find_best_input_device devices = none ↔
      ∀ d ∈ devices, ∀ r ∈ m.input_priorities,
        r.matches d.name = true → r.weight = 0) :=
  ⟨find_best_none_iff devices m.output_priorities,
   find_best_none_iff devices m.input_priorities⟩

/-- C2 witness: the amended equivalence applied at a concrete input. -/
theorem C2_witness : mgrZero.find_best_output_device [devA0] = none :=
  (C2_find_best_none_iff_all_zero mgrZero [devA0]).1.mpr (by decide)

/-! ### Appearance-time map (src/audio/listener.rs `device_appearance_times`)

The `HashMap<String, Instant>` is modelled as an association list in which
lookup returns the first binding, insertion replaces any previous binding,
and removal deletes every binding of the key. -/

/-- Lookup in the appearance-time map (model of `HashMap::get`). -/
def lookupTime (m : List (String × Nat)) (k : String) : Option Nat :=
  (m.find? (fun p => p.1 == k)).map Prod.snd

/-- Insertion in the appearance-time map (model of `HashMap::insert`). -/
def insertTime (m : List (String × Nat)) (k : String) (v : Nat) :
    List (String × Nat) :=
  (k, v) :: m.filter (fun p => p.1 != k)

/-- Removal from the appearance-time map (model of `HashMap::remove`). -/
def removeTime (m : List (String × Nat)) (k : String) : List (String × Nat) :=
  m.filter (fun p => p.1 != k)

/-! ### Debouncer / stability filter (src/audio/listener.rs) -/

/-- `DEVICE_STABILITY_THRESHOLD_MS` from src/audio/listener.rs. -/
def DEVICE_STABILITY_THRESHOLD_MS : Nat := 750

/-- `BLUETOOTH_DEVICE_STABILITY_THRESHOLD_MS` from src/audio/listener.rs. -/
def BLUETOOTH_DEVICE_STABILITY_THRESHOLD_MS : Nat := 1500

/-- The keyword list bundled in `is_likely_bluetooth_device`. -/
def bluetoothKeywords : List String :=
  ["airpod", "bluetooth", "beats", "bose", "sony", "jabra", "jbl"]

/-- `CoreAudioListener::is_likely_bluetooth_device`: case-insensitive keyword
substring test (Rust lowercases the name and checks `contains`). -/
def is_likely_bluetooth_device (deviceName : String) : Bool :=
  bluetoothKeywords.any (fun keyword => strContains (strToLower deviceName) keyword)

/-- `CoreAudioListener::has_paired_input_output`: both an output-typed and an
input-typed device whose name contains the pattern exist. -/
def has_paired_input_output (devices : List AudioDevice) (deviceName : String) :
    Bool :=
  (devices.any fun d =>
    strContains d.name deviceName && decide (d.device_type = DeviceType.Output)) &&
  (devices.any fun d =>
    strContains d.name deviceName && decide (d.device_type = DeviceType.Input))

/-- The base-name extraction `d.name.split('-').next().unwrap_or(&d.name).trim()`
used for the Bluetooth paired-peer check. -/
def baseName (name : String) : String :=
  strTrim (String.mk (name.data.takeWhile (fun c => c != '-')))

/-- The stability threshold selected for a device name (the source computes
this inline: the Bluetooth threshold when the keyword list matches,
otherwise the default threshold). -/
def stabilityThreshold (name : String) : Nat :=
  if is_likely_bluetooth_device name = true then
    BLUETOOTH_DEVICE_STABILITY_THRESHOLD_MS
  else DEVICE_STABILITY_THRESHOLD_MS

/-- The stability predicate of the filter closure in
`CoreAudioListener::handle_device_list_change` (lines 301-333).  The local
`elapsed`, `is_bluetooth` and `threshold` bindings of the source are inlined;
`now - appearedAt` models `now.duration_since(appeared_at)`, which saturates
at zero. -/
def deviceIsStable (appearanceTimes : List (String × Nat))
    (currentDevices : List AudioDevice) (now : Nat) (d : AudioDevice) : Bool :=
  match lookupTime appearanceTimes d.id with
  | none => false
  | some appearedAt =>
    if is_likely_bluetooth_device d.name = true ∧
        stabilityThreshold d.name ≤ now - appearedAt then
      has_paired_input_output currentDevices (baseName d.name)
    else decide (stabilityThreshold d.name ≤ now - appearedAt)

/-- `stable_devices` of `handle_device_list_change`: the current devices
passing the stability predicate. -/
def stable_devices (appearanceTimes : List (String × Nat))
    (currentDevices : List AudioDevice) (now : Nat) : List AudioDevice :=
  currentDevices.filter (fun d => deviceIsStable appearanceTimes currentDevices now d)

/-- `stable_output_devices` of `handle_device_list_change`: stable devices of
type `Output` (exactly — the source pattern-matches `DeviceType::Output`). -/
def stable_output_devices (appearanceTimes : List (String × Nat))
    (currentDevices : List AudioDevice) (now : Nat) : List AudioDevice :=
  (stable_devices appearanceTimes currentDevices now).filter
    (fun d => decide (d.device_type = DeviceType.Output))

/-- `stable_input_devices` of `handle_device_list_change`: stable devices of
type `Input` (exactly). -/
def stable_input_devices (appearanceTimes : List (String × Nat))
    (currentDevices : List AudioDevice) (now : Nat) : List AudioDevice :=
  (stable_devices appearanceTimes currentDevices now).filter
    (fun d => decide (d.device_type = DeviceType.Input))

/-- Unfolding of the stability predicate when an appearance time exists. -/
theorem deviceIsStable_some (appearanceTimes : List (String × Nat))
    (currentDevices : List AudioDevice) (now : Nat) (d : AudioDevice) (t : Nat)
    (hlook : lookupTime appearanceTimes d.id = some t) :
    deviceIsStable appearanceTimes currentDevices now d =
      if is_likely_bluetooth_device d.name = true ∧
          stabilityThreshold d.name ≤ now - t then
        has_paired_input_output currentDevices (baseName d.name)
      else decide (stabilityThreshold d.name ≤ now - t) := by
  rw [deviceIsStable, hlook]

/-- Unfolding of the stability predicate for a missing appearance time. -/
theorem deviceIsStable_none (appearanceTimes : List (String × Nat))
    (currentDevices : List AudioDevice) (now : Nat) (d : AudioDevice)
    (hlook : lookupTime appearanceTimes d.id = none) :
    deviceIsStable appearanceTimes currentDevices now d = false := by
  rw [deviceIsStable, hlook]

/-! ### C4 -/

/-- C4: a device of the current snapshot is admitted as stable exactly when it
has a recorded appearance time whose elapsed duration reaches the selected
threshold (1500 ms for Bluetooth-keyword names, 750 ms otherwise) and, for
Bluetooth-classified devices, the snapshot contains paired devices of both
directions sharing the trimmed prefix of the name before the first dash;
a device with no appearance entry is never stable. -/
theorem C4_stability_characterization (appearanceTimes : List (String × Nat))
    (current : List AudioDevice) (now : Nat) (d : AudioDevice)
    (h : d ∈ current) :
    (d ∈ stable_devices appearanceTimes current now ↔
      ∃ t, lookupTime appearanceTimes d.id = some t ∧
        stabilityThreshold d.name ≤ now - t ∧
        (is_likely_bluetooth_device d.name = true →
          has_paired_input_output current (baseName d.name) = true)) ∧
    (lookupTime appearanceTimes d.id = none →
      d ∉ stable_devices appearanceTimes current now) := by
  constructor
  · rw [stable_devices, List.mem_filter]
    constructor
    · rintro ⟨-, hstable⟩
      cases hlook : lookupTime appearanceTimes d.id with
      | none => rw [deviceIsStable_none _ _ _ _ hlook] at hstable; cases hstable
      | some t =>
        rw [deviceIsStable_some _ _ _ _ _ hlook] at hstable
        by_cases hcond : is_likely_bluetooth_device d.name = true ∧
            stabilityThreshold d.name ≤ now - t
        · rw [if_pos hcond] at hstable
          exact ⟨t, rfl, hcond.2, fun _ => hstable⟩
        · rw [if_neg hcond] at hstable
          have hle : stabilityThreshold d.name ≤ now - t := by
            simpa using hstable
          have hbt : ¬ is_likely_bluetooth_device d.name = true := by
            intro hb
            exact hcond ⟨hb, hle⟩
          exact ⟨t, rfl, hle, fun hb => absurd hb hbt⟩
    · rintro ⟨t, hlook, hle, hpair⟩
      refine ⟨h, ?_⟩
      rw [deviceIsStable_some _ _ _ _ _ hlook]
      by_cases hbt : is_likely_bluetooth_device d.name = true
      · rw [if_pos ⟨hbt, hle⟩]
        exact hpair hbt
      · rw [if_neg (fun hc => hbt hc.1)]
        simpa using hle
  · intro hnone hmem
    rw [stable_devices, List.mem_filter] at hmem
    rw [deviceIsStable_none _ _ _ _ hnone] at hmem
    cases hmem.2

/-- C4 witness: a concrete Bluetooth output device with a paired input peer
becomes stable at 1500 ms. -/
theorem C4_witness :
    devBtOut ∈ stable_devices [("70", 0), ("71", 0)] [devBtOut, devBtIn] 1500 ↔
      ∃ t, lookupTime [("70", 0), ("71", 0)] devBtOut.id = some t ∧
        stabilityThreshold devBtOut.name ≤ 1500 - t ∧
        (is_likely_bluetooth_device devBtOut.name = true →
          has_paired_input_output [devBtOut, devBtIn]
            (baseName devBtOut.name) = true) :=
  (C4_stability_characterization [("70", 0), ("71", 0)] [devBtOut, devBtIn]
    1500 devBtOut (by decide)).1

/-! ### C3 -/

/-- C3 counterexample: a stable `InputOutput` device is direction-compatible
with both directions, yet it is excluded from both candidate lists, because
the source filters on exactly `DeviceType::Output` / `DeviceType::Input`. -/
theorem C3_counterexample :
    devDuet ∈ stable_devices [("9", 0)] [devDuet] 2000 ∧
    devDuet.device_type = DeviceType.InputOutput ∧
    devDuet ∉ stable_output_devices [("9", 0)] [devDuet] 2000 ∧
    devDuet ∉ stable_input_devices [("9", 0)] [devDuet] 2000 := by
  refine ⟨by decide, rfl, by decide, by decide⟩

/-- C3 (amended): the output candidate set consists of exactly the stable
devices whose type is `Output`, the input candidate set of exactly the stable
devices whose type is `Input`; `InputOutput` devices are excluded from both
despite being direction-compatible. -/
theorem C3_direction_filter (appearanceTimes : List (String × Nat))
    (current : List AudioDevice) (now : Nat) (d : AudioDevice) :
    (d ∈ stable_output_devices appearanceTimes current now ↔
      d ∈ stable_devices appearanceTimes current now ∧
        d.device_type = DeviceType.Output) ∧
    (d ∈ stable_input_devices appearanceTimes current now ↔
      d ∈ stable_devices appearanceTimes current now ∧
        d.device_type = DeviceType.Input) ∧
    (d.device_type = DeviceType.InputOutput →
      d ∉ stable_output_devices appearanceTimes current now ∧
      d ∉ stable_input_devices appearanceTimes current now) := by
  refine ⟨?_, ?_, ?_⟩
  · rw [stable_output_devices, List.mem_filter]
    simp
  · rw [stable_input_devices, List.mem_filter]
    simp
  · intro hio
    constructor
    · intro hmem
      rw [stable_output_devices, List.mem_filter] at hmem
      rw [hio] at hmem
      simpa using hmem.2
    · intro hmem
      rw [stable_input_devices, List.mem_filter] at hmem
      rw [hio] at hmem
      simpa using hmem.2

/-- C3 witness: the amended filter equivalence applied at a concrete input. -/
theorem C3_witness :
    devDuet ∈ stable_output_devices [("9", 0)] [devDuet] 2000 ↔
      devDuet ∈ stable_devices [("9", 0)] [devDuet] 2000 ∧
        devDuet.device_type = DeviceType.Output :=
  (C3_direction_filter [("9", 0)] [devDuet] 2000 devDuet).1

/-! ### Listener state (src/audio/listener.rs) -/

/-- The listener state touched by device-list events:
`previous_devices` and `device_appearance_times`. -/
structure ListenerState where
  previous_devices : List AudioDevice
  appearance_times : List (String × Nat)
deriving Repr

/-- State built by `CoreAudioListener::new`: the initial enumeration becomes
`previous_devices` and each initial device gets an appearance entry stamped
with the construction instant. -/
def initListenerState (initialDevices : List AudioDevice) (now : Nat) :
    ListenerState :=
  { previous_devices := initialDevices,
    appearance_times :=
      initialDevices.foldl (fun m d => insertTime m d.id now) [] }

/-- The state update performed by
`CoreAudioListener::handle_device_list_change` (lines 243-293): newly
connected devices get an appearance entry stamped `now`, disconnected devices
lose theirs, and `previous_devices` becomes the current list.  Notification
emission carries no state and is omitted here. -/
def handle_device_list_change_state (st : ListenerState)
    (currentDevices : List AudioDevice) (now : Nat) : ListenerState :=
  let added := currentDevices.filter
    (fun d => !st.previous_devices.any (fun prev => prev.id == d.id))
  let removed := st.previous_devices.filter
    (fun prev => !currentDevices.any (fun curr => curr.id == prev.id))
  let times1 := added.foldl (fun m d => insertTime m d.id now) st.appearance_times
  let times2 := removed.foldl (fun m p => removeTime m p.id) times1
  { previous_devices := currentDevices, appearance_times := times2 }

/-- The listener invariant: every key of `appearance_times` is the id of some
device in `previous_devices`. -/
def timesInvariant (st : ListenerState) : Prop :=
  ∀ k ∈ st.appearance_times.map Prod.fst,
    ∃ d ∈ st.previous_devices, d.id = k

theorem mem_keys_insert (m : List (String × Nat)) (k : String) (v : Nat)
    (q : String) (h : q ∈ (insertTime m k v).map Prod.fst) :
    q = k ∨ q ∈ m.map Prod.fst := by
  rcases List.mem_map.mp h with ⟨p, hp, hq⟩
  rcases List.mem_cons.mp hp with heq | hmem
  · left
    rw [← hq, heq]
  · exact Or.inr (List.mem_map.mpr ⟨p, (List.mem_filter.mp hmem).1, hq⟩)

theorem mem_keys_remove (m : List (String × Nat)) (k : String)
    (q : String) (h : q ∈ (removeTime m k).map Prod.fst) :
    q ∈ m.map Prod.fst ∧ q ≠ k := by
  rcases List.mem_map.mp h with ⟨p, hp, hq⟩
  rcases List.mem_filter.mp hp with ⟨hpm, hpk⟩
  refine ⟨List.mem_map.mpr ⟨p, hpm, hq⟩, ?_⟩
  rw [← hq]
  simpa using hpk

theorem mem_keys_insert_fold (now : Nat) :
    ∀ (l : List AudioDevice) (m : List (String × Nat)) (q : String),
      q ∈ ((l.foldl (fun m d => insertTime m d.id now) m).map Prod.fst) →
      q ∈ m.map Prod.fst ∨ ∃ d ∈ l, d.id = q := by
  intro l
  induction l with
  | nil => intro m q h; exact Or.inl h
  | cons a t ih =>
    intro m q h
    rcases ih (insertTime m a.id now) q h with hm | ⟨d, hd, hdq⟩
    · rcases mem_keys_insert m a.id now q hm with rfl | hm0
      · exact Or.inr ⟨a, List.mem_cons_self a t, rfl⟩
      · exact Or.inl hm0
    · exact Or.inr ⟨d, List.mem_cons_of_mem a hd, hdq⟩

theorem mem_keys_remove_fold :
    ∀ (l : List AudioDevice) (m : List (String × Nat)) (q : String),
      q ∈ ((l.foldl (fun m p => removeTime m p.id) m).map Prod.fst) →
      q ∈ m.map Prod.fst ∧ ∀ p ∈ l, p.id ≠ q := by
  intro l
  induction l with
  | nil => intro m q h; exact ⟨h, by intro p hp; cases hp⟩
  | cons a t ih =>
    intro m q h
    rcases ih (removeTime m a.id) q h with ⟨hm, hall⟩
    rcases mem_keys_remove m a.id q hm with ⟨hm0, hqa⟩
    refine ⟨hm0, ?_⟩
    intro p hp
    rcases List.mem_cons.mp hp with rfl | hmem
    · exact fun hc => hqa hc.symm
    · exact hall p hmem

theorem remove_fold_not_mem :
    ∀ (l : List AudioDevice) (m : List (String × Nat)) (q : String),
      (∃ p ∈ l, p.id = q) →
      q ∉ ((l.foldl (fun m p => removeTime m p.id) m).map Prod.fst) := by
  intro l
  induction l with
  | nil => rintro m q ⟨p, hp, -⟩; cases hp
  | cons a t ih =>
    rintro m q ⟨p, hp, hpq⟩ hmem
    rcases List.mem_cons.mp hp with rfl | hpt
    · rcases mem_keys_remove_fold t (removeTime m p.id) q hmem with ⟨hm, -⟩
      exact (mem_keys_remove m p.id q hm).2 hpq.symm
    · exact ih (removeTime m a.id) q ⟨p, hpt, hpq⟩ hmem

theorem lookupTime_filter_ne (k q : String) (h : q ≠ k) :
    ∀ m : List (String × Nat),
      lookupTime (m.filter (fun p => p.1 != k)) q = lookupTime m q := by
  intro m
  induction m with
  | nil => rfl
  | cons p t ih =>
    by_cases hpk : p.1 = k
    · have hfilter : (p :: t).filter (fun p => p.1 != k) =
          t.filter (fun p => p.1 != k) := by
        simp [List.filter_cons, hpk]
      have hpq : (p.1 == q) = false := by
        simp [hpk]
        exact fun hc => h hc.symm
      rw [hfilter, ih]
      simp [lookupTime, List.find?_cons, hpq]
    · have hfilter : (p :: t).filter (fun p => p.1 != k) =
          p :: t.filter (fun p => p.1 != k) := by
        simp [List.filter_cons, hpk]
      rw [hfilter]
      by_cases hpq : p.1 = q
      · simp [lookupTime, List.find?_cons, hpq]
      · have hf : (p.1 == q) = false := by simpa using hpq
        simp only [lookupTime, List.find?_cons, hf]
        exact ih

theorem lookupTime_insert_self (m : List (String × Nat)) (k : String) (v : Nat) :
    lookupTime (insertTime m k v) k = some v := by
  simp [lookupTime, insertTime, List.find?_cons]

theorem lookupTime_insert_ne (m : List (String × Nat)) (k q : String) (v : Nat)
    (h : q ≠ k) : lookupTime (insertTime m k v) q = lookupTime m q := by
  have hf : (k == q) = false := by
    simp
    exact fun hc => h hc.symm
  simp only [insertTime, lookupTime, List.find?_cons, hf]
  exact lookupTime_filter_ne k q h m

theorem lookupTime_remove_ne (m : List (String × Nat)) (k q : String)
    (h : q ≠ k) : lookupTime (removeTime m k) q = lookupTime m q :=
  lookupTime_filter_ne k q h m

theorem lookup_insert_fold_ne (now : Nat) :
    ∀ (l : List AudioDevice) (m : List (String × Nat)) (q : String),
      (∀ d ∈ l, d.id ≠ q) →
      lookupTime (l.foldl (fun m d => insertTime m d.id now) m) q =
        lookupTime m q := by
  intro l
  induction l with
  | nil => intro m q _; rfl
  | cons a t ih =>
    intro m q hall
    have ha : a.id ≠ q := hall a (List.mem_cons_self a t)
    have ht : ∀ d ∈ t, d.id ≠ q := fun d hd => hall d (List.mem_cons_of_mem a hd)
    rw [List.foldl_cons, ih (insertTime m a.id now) q ht,
      lookupTime_insert_ne m a.id q now (fun hc => ha hc.symm)]

theorem lookup_insert_fold (now : Nat) :
    ∀ (l : List AudioDevice) (m : List (String × Nat)) (q : String),
      (∃ d ∈ l, d.id = q) →
      lookupTime (l.foldl (fun m d => insertTime m d.id now) m) q = some now := by
  intro l
  induction l with
  | nil => rintro m q ⟨d, hd, -⟩; cases hd
  | cons a t ih =>
    rintro m q ⟨d, hd, hdq⟩
    by_cases hq : ∃ d ∈ t, d.id = q
    · rw [List.foldl_cons]
      exact ih (insertTime m a.id now) q hq
    · have hall : ∀ d ∈ t, d.id ≠ q := by
        intro c hc hcq
        exact hq ⟨c, hc, hcq⟩
      have haq : a.id = q := by
        rcases List.mem_cons.mp hd with rfl | hdt
        · exact hdq
        · exact absurd hdq (hall d hdt)
      rw [List.foldl_cons, lookup_insert_fold_ne now t (insertTime m a.id now) q hall,
        ← haq, lookupTime_insert_self]

theorem lookup_remove_fold_ne :
    ∀ (l : List AudioDevice) (m : List (String × Nat)) (q : String),
      (∀ p ∈ l, p.id ≠ q) →
      lookupTime (l.foldl (fun m p => removeTime m p.id) m) q = lookupTime m q := by
  intro l
  induction l with
  | nil => intro m q _; rfl
  | cons a t ih =>
    intro m q hall
    have ha : a.id ≠ q := hall a (List.mem_cons_self a t)
    have ht : ∀ p ∈ t, p.id ≠ q := fun p hp => hall p (List.mem_cons_of_mem a hp)
    rw [List.foldl_cons, ih (removeTime m a.id) q ht,
      lookupTime_remove_ne m a.id q (fun hc => ha hc.symm)]

/-! ### C9 -/

/-- C9: the listener invariant holds after construction and is preserved by
every processed device-list event; a device absent from the new snapshot has
its appearance entry deleted by that event, and a newly appearing device gets
an entry stamped with the event time. -/
theorem C9_appearance_times_invariant (st : ListenerState)
    (current initial : List AudioDevice) (now : Nat) :
    timesInvariant (initListenerState initial now) ∧
    (timesInvariant st →
      timesInvariant (handle_device_list_change_state st current now)) ∧
    (∀ p ∈ st.previous_devices, (∀ c ∈ current, c.id ≠ p.id) →
      p.id ∉ (handle_device_list_change_state st current now).appearance_times.map
        Prod.fst) ∧
    (∀ d ∈ current, (∀ p ∈ st.previous_devices, p.id ≠ d.id) →
      lookupTime
        (handle_device_list_change_state st current now).appearance_times d.id =
        some now) := by
  refine ⟨?_, ?_, ?_, ?_⟩
  · intro k hk
    rcases mem_keys_insert_fold now initial [] k hk with hnil | ⟨d, hd, hdq⟩
    · cases hnil
    · exact ⟨d, hd, hdq⟩
  · intro hinv k hk
    rcases mem_keys_remove_fold _ _ k hk with ⟨hk1, hremoved⟩
    rcases mem_keys_insert_fold now _ _ k hk1 with hk0 | ⟨d, hd, hdq⟩
    · rcases hinv k hk0 with ⟨p, hp, hpk⟩
      by_cases hc : ∃ c ∈ current, c.id = k
      · rcases hc with ⟨c, hcmem, hck⟩
        exact ⟨c, hcmem, hck⟩
      · exfalso
        have hprem : p ∈ st.previous_devices.filter
            (fun prev => !current.any (fun curr => curr.id == prev.id)) := by
          rw [List.mem_filter]
          refine ⟨hp, ?_⟩
          simp only [Bool.not_eq_true', List.any_eq_false]
          intro c hcmem hck
          exact hc ⟨c, hcmem, by rw [eq_of_beq hck, hpk]⟩
        exact hremoved p hprem hpk
    · exact ⟨d, (List.mem_filter.mp hd).1, hdq⟩
  · intro p hp hgone
    have hprem : p ∈ st.previous_devices.filter
        (fun prev => !current.any (fun curr => curr.id == prev.id)) := by
      rw [List.mem_filter]
      refine ⟨hp, ?_⟩
      simp only [Bool.not_eq_true', List.any_eq_false]
      intro c hcmem hck
      exact hgone c hcmem (eq_of_beq hck)
    exact remove_fold_not_mem _ _ p.id ⟨p, hprem, rfl⟩
  · intro d hd hnew
    have hadded : d ∈ current.filter
        (fun d => !st.previous_devices.any (fun prev => prev.id == d.id)) := by
      rw [List.mem_filter]
      refine ⟨hd, ?_⟩
      simp only [Bool.not_eq_true', List.any_eq_false]
      intro q hq hbeq
      exact hnew q hq (eq_of_beq hbeq)
    have hkeep : ∀ p ∈ st.previous_devices.filter
        (fun prev => !current.any (fun curr => curr.id == prev.id)),
        p.id ≠ d.id := by
      intro p hpmem hpid
      rcases List.mem_filter.mp hpmem with ⟨-, hpf⟩
      simp only [Bool.not_eq_true', List.any_eq_false] at hpf
      exact hpf d hd (beq_iff_eq.mpr hpid.symm)
    have hunfold : (handle_device_list_change_state st current now).appearance_times =
        (st.previous_devices.filter
          (fun prev => !current.any (fun curr => curr.id == prev.id))).foldl
          (fun m p => removeTime m p.id)
          ((current.filter
            (fun d => !st.previous_devices.any (fun prev => prev.id == d.id))).foldl
            (fun m d => insertTime m d.id now) st.appearance_times) := rfl
    rw [hunfold, lookup_remove_fold_ne _ _ d.id hkeep]
    exact lookup_insert_fold now _ _ d.id ⟨d, hadded, rfl⟩

/-- C9 witness: a concrete event where one device disappears and another
appears; the new device is stamped with the event time. -/
theorem C9_witness :
    lookupTime
      (handle_device_list_change_state (initListenerState [devAir] 0)
        [devSpeakers] 1000).appearance_times devSpeakers.id = some 1000 :=
  (C9_appearance_times_invariant (initListenerState [devAir] 0)
      [devSpeakers] [devAir] 1000).2.2.2 devSpeakers (by simp)
    (by intro p hp; fin_cases hp; decide)

/-! ### Notifications and switch reasons (src/notifications/mod.rs) -/

/-- `SwitchReason` from src/notifications/mod.rs. -/
inductive SwitchReason where
  | HigherPriority
  | PreviousUnavailable
  | Manual
deriving DecidableEq, Repr

/-- The notification-manager calls made by the controller and the listener.
Each constructor records one call into the notification manager. -/
inductive NotificationEvent where
  | deviceConnected (deviceName : String)
  | deviceDisconnected (deviceName : String)
  | deviceSwitched (deviceName : String) (reason : SwitchReason)
  | switchFailed (deviceName : String) (errorMessage : String)
deriving DecidableEq, Repr

/-- Log levels of the tracing macros used in the sources. -/
inductive LogLevel where
  | debug
  | info
  | warn
  | error
deriving DecidableEq, Repr

/-- The flag state of `NotificationManager` (src/notifications/mod.rs). -/
structure NotificationManager where
  enabled : Bool
  show_device_availability : Bool
  show_switching_actions : Bool
deriving DecidableEq, Repr

/-- `NotificationManager::switch_failed` (src/notifications/mod.rs lines
202-214).  The sender is modelled as a function returning the result of
`NotificationSender::send`; the second component lists the (title, body)
pairs actually passed to the sender. -/
def NotificationManager.switch_failed (mgr : NotificationManager)
    (send : String → String → Except String Unit)
    (deviceName errorMessage : String) :
    Except String Unit × List (String × String) :=
  if mgr.enabled = false ∨ mgr.show_switching_actions = false then
    (Except.ok (), [])
  else
    let title := "Audio Device Switch Failed"
    let body := "Failed to switch to " ++ deviceName ++ ": " ++ errorMessage
    match send title body with
    | Except.ok _ => (Except.ok (), [(title, body)])
    | Except.error e => (Except.error e, [(title, body)])

/-! ### Reconciliation controller (src/audio/controller_v2.rs) -/

/-- The intended-device state of `DeviceController` (controller_v2). -/
structure ControllerState where
  current_output : Option AudioDevice
  current_input : Option AudioDevice
deriving DecidableEq, Repr

/-- `DeviceController::switch_to_output_device` (controller_v2 lines
108-137).  `setResult` is the outcome of
`AudioSystem::set_default_output_device`; the `?` operator makes a failure
return early, leaving the state unchanged and sending no notification.  On
success the previous device decides the reported reason. -/
def switch_to_output_device (st : ControllerState)
    (setResult : Except String Unit) (device : AudioDevice) :
    Except String Unit × ControllerState × List NotificationEvent :=
  match setResult with
  | Except.error e => (Except.error e, st, [])
  | Except.ok _ =>
    let previous_device := st.current_output
    let reason :=
      if previous_device.isSome then SwitchReason.HigherPriority
      else SwitchReason.Manual
    (Except.ok (), { st with current_output := some device },
     [NotificationEvent.deviceSwitched device.name reason])

/-- `DeviceController::switch_to_input_device` (controller_v2 lines
140-166), mirror of the output variant. -/
def switch_to_input_device (st : ControllerState)
    (setResult : Except String Unit) (device : AudioDevice) :
    Except String Unit × ControllerState × List NotificationEvent :=
  match setResult with
  | Except.error e => (Except.error e, st, [])
  | Except.ok _ =>
    let previous_device := st.current_input
    let reason :=
      if previous_device.isSome then SwitchReason.HigherPriority
      else SwitchReason.Manual
    (Except.ok (), { st with current_input := some device },
     [NotificationEvent.deviceSwitched device.name reason])

/-- `DeviceController::handle_device_disconnected` (controller_v2 lines
284-330): clear a matching current slot, notify the disconnect, and when a
slot was cleared look for a replacement among the enumerated devices
excluding the disconnected id and name, switching to it for the direction
equal to the disconnected device type. -/
def handle_device_disconnected (st : ControllerState)
    (m : DevicePriorityManager) (enumerated : List AudioDevice)
    (setOutputResult setInputResult : Except String Unit)
    (device : AudioDevice) :
    Except String Unit × ControllerState × List NotificationEvent :=
  let clearedOutput : Bool :=
    match st.current_output with
    | some cur => cur.id == device.id
    | none => false
  let clearedInput : Bool :=
    match st.current_input with
    | some cur => cur.id == device.id
    | none => false
  let st1 : ControllerState :=
    { current_output := if clearedOutput then none else st.current_output,
      current_input := if clearedInput then none else st.current_input }
  let notifs0 := [NotificationEvent.deviceDisconnected device.name]
  if clearedOutput || clearedInput then
    let available := enumerated.filter
      (fun d => decide (d.id ≠ device.id) && decide (d.name ≠ device.name))
    let afterOutput :=
      if st1.current_output.isNone &&
          decide (device.device_type = DeviceType.Output) then
        match m.find_best_output_device available with
        | some best =>
          let r := switch_to_output_device st1 setOutputResult best
          (r.1, r.2.1, notifs0 ++ r.2.2)
        | none => (Except.ok (), st1, notifs0)
      else (Except.ok (), st1, notifs0)
    match afterOutput.1 with
    | Except.error e => (Except.error e, afterOutput.2.1, afterOutput.2.2)
    | Except.ok _ =>
      let st2 := afterOutput.2.1
      if st2.current_input.isNone &&
          decide (device.device_type = DeviceType.Input) then
        match m.find_best_input_device available with
        | some best =>
          let r := switch_to_input_device st2 setInputResult best
          (r.1, r.2.1, afterOutput.2.2 ++ r.2.2)
        | none => (Except.ok (), st2, afterOutput.2.2)
      else (Except.ok (), st2, afterOutput.2.2)
  else (Except.ok (), st1, notifs0)

/-! ### Listener switch attempt (src/audio/listener.rs lines 361-399) -/

/-- The log lines and notification calls of the output switch attempt in
`handle_device_list_change`.  On success the listener logs at info and
notifies `device_switched(HigherPriority)`; on failure it logs at error and
notifies `switch_failed`. -/
def listener_apply_output_switch (best : AudioDevice)
    (setResult : Except String Unit) :
    List (LogLevel × String) × List NotificationEvent :=
  match setResult with
  | Except.ok _ =>
    ([(LogLevel.info, "Successfully switched to output device: " ++ best.name)],
     [NotificationEvent.deviceSwitched best.name SwitchReason.HigherPriority])
  | Except.error e =>
    ([(LogLevel.error, "Failed to switch output device: " ++ e)],
     [NotificationEvent.switchFailed best.name e])

/-- The output reconciliation block of `handle_device_list_change`: the
priority manager is only read (the source takes a shared lock and never calls
`update_current_output` here), so it is returned unchanged. -/
def listener_reconcile_output (m : DevicePriorityManager)
    (stableOutputs : List AudioDevice) (setResult : Except String Unit) :
    DevicePriorityManager × List (LogLevel × String) × List NotificationEvent :=
  match m.find_best_output_device stableOutputs with
  | some best =>
    if m.should_switch_output best = true then
      let r := listener_apply_output_switch best setResult
      (m, r.1, r.2)
    else (m, [], [])
  | none => (m, [], [])

/-! ### C5 -/

/-- C5 counterexample: a failing set-default call through
`DeviceController::switch_to_output_device` (controller_v2) returns the error
without emitting any notification at all — in particular no `switch_failed`
notification — refuting the claim for this attempted switch. -/
theorem C5_counterexample :
    switch_to_output_device ⟨none, none⟩ (Except.error "boom") devAir =
      (Except.error "boom", ⟨none, none⟩, []) ∧
    NotificationEvent.switchFailed devAir.name "boom" ∉
      (switch_to_output_device ⟨none, none⟩ (Except.error "boom") devAir).2.2 := by
  have h : switch_to_output_device ⟨none, none⟩ (Except.error "boom") devAir =
      (Except.error "boom", ⟨none, none⟩, []) := rfl
  refine ⟨h, ?_⟩
  rw [h]
  simp

/-- C5 (amended): on the listener path a set-default failure produces an
error-level log line and a `switch_failed` notification and leaves the
resolver unchanged; `DeviceController::switch_to_output_device` instead
returns the error with its state unchanged and no notification, and updates
`current_output` to the new device only when the call succeeds. -/
theorem C5_set_default_failure (m : DevicePriorityManager)
    (stableOutputs : List AudioDevice) (st : ControllerState)
    (best device : AudioDevice) (e : String)
    (hbest : m.find_best_output_device stableOutputs = some best)
    (hsw : m.should_switch_output best = true) :
    listener_reconcile_output m stableOutputs (Except.error e) =
      (m, [(LogLevel.error, "Failed to switch output device: " ++ e)],
       [NotificationEvent.switchFailed best.name e]) ∧
    switch_to_output_device st (Except.error e) device =
      (Except.error e, st, []) ∧
    (switch_to_output_device st (Except.ok ()) device).2.1.current_output =
      some device := by
  refine ⟨?_, rfl, rfl⟩
  simp only [listener_reconcile_output, hbest]
  rw [if_pos hsw]
  rfl

/-- C5 witness: the amended statement evaluated at a concrete failing call. -/
theorem C5_witness :
    listener_reconcile_output mgrEx [devAir] (Except.error "boom") =
      (mgrEx, [(LogLevel.error, "Failed to switch output device: boom")],
       [NotificationEvent.switchFailed devAir.name "boom"]) :=
  (C5_set_default_failure mgrEx [devAir] ⟨none, none⟩ devAir devAir "boom"
    (by decide) (by decide)).1

/-! ### C6 -/

/-- C6 counterexample: disconnecting the current output device and falling
back to the best remaining device reports the switch with reason `Manual`
(the slot was cleared before switching, so `previous_device` is `None`),
not `PreviousUnavailable` as claimed. -/
theorem C6_counterexample :
    (handle_device_disconnected ⟨some devAir, none⟩ mgrEx [devAir, devSpeakers]
      (Except.ok ()) (Except.ok ()) devAir).2.2 =
      [NotificationEvent.deviceDisconnected devAir.name,
       NotificationEvent.deviceSwitched devSpeakers.name SwitchReason.Manual] ∧
    SwitchReason.Manual ≠ SwitchReason.PreviousUnavailable := by
  refine ⟨by decide, by decide⟩

/-- C6 (amended): when the disconnected device is the current output device,
`handle_device_disconnected` clears the slot, notifies the disconnect, asks
the resolver for the best device among the enumerated devices excluding the
disconnected id and name, and, when one is found and the set-default call
succeeds, installs it as the new current output — reporting the switch with
reason `Manual`, not `PreviousUnavailable`. -/
theorem C6_disconnect_fallback (st : ControllerState)
    (m : DevicePriorityManager) (enumerated : List AudioDevice)
    (setInputResult : Except String Unit) (device cur best : AudioDevice)
    (hcur : st.current_output = some cur) (hid : cur.id = device.id)
    (htype : device.device_type = DeviceType.Output)
    (hbest : m.find_best_output_device
      (enumerated.filter
        (fun d => decide (d.id ≠ device.id) && decide (d.name ≠ device.name))) =
      some best) :
    handle_device_disconnected st m enumerated (Except.ok ()) setInputResult
        device =
      (Except.ok (),
       { current_output := some best,
         current_input :=
           if (match st.current_input with
               | some c => c.id == device.id
               | none => false) then none else st.current_input },
       [NotificationEvent.deviceDisconnected device.name,
        NotificationEvent.deviceSwitched best.name SwitchReason.Manual]) := by
  rw [handle_device_disconnected]
  simp only [hcur, hid, htype, beq_self_eq_true, Bool.true_or, if_pos rfl,
    hbest, switch_to_output_device]
  simp

/-- C6 witness: the amended statement evaluated at a concrete disconnect. -/
theorem C6_witness :
    handle_device_disconnected ⟨some devAir, none⟩ mgrEx [devAir, devSpeakers]
        (Except.ok ()) (Except.ok ()) devAir =
      (Except.ok (),
       { current_output := some devSpeakers,
         current_input :=
           if (match (⟨some devAir, none⟩ : ControllerState).current_input with
               | some c => c.id == devAir.id
               | none => false) then none
           else (⟨some devAir, none⟩ : ControllerState).current_input },
       [NotificationEvent.deviceDisconnected devAir.name,
        NotificationEvent.deviceSwitched devSpeakers.name SwitchReason.Manual]) :=
  C6_disconnect_fallback ⟨some devAir, none⟩ mgrEx [devAir, devSpeakers]
    (Except.ok ()) devAir devAir devSpeakers rfl rfl rfl (by decide)

/-! ### C10 -/

/-- C10: `switch_failed` contacts the sender only when the manager is enabled
and `show_switching_actions` is set; with `show_switching_actions` false it
returns `Ok` without any send, and the availability flag plays no role (there
is no dedicated error flag). -/
theorem C10_switch_failed_gating (mgr : NotificationManager)
    (send : String → String → Except String Unit)
    (deviceName errorMessage : String) :
    ((mgr.switch_failed send deviceName errorMessage).2 ≠ [] →
      mgr.enabled = true ∧ mgr.show_switching_actions = true) ∧
    (mgr.show_switching_actions = false →
      mgr.switch_failed send deviceName errorMessage = (Except.ok (), [])) ∧
    (∀ b : Bool,
      NotificationManager.switch_failed
        ⟨mgr.enabled, b, mgr.show_switching_actions⟩ send deviceName
        errorMessage =
      mgr.switch_failed send deviceName errorMessage) := by
  refine ⟨?_, ?_, fun b => rfl⟩
  · intro hne
    by_cases hoff : mgr.enabled = false ∨ mgr.show_switching_actions = false
    · exfalso
      apply hne
      rw [NotificationManager.switch_failed, if_pos hoff]
    · push_neg at hoff
      constructor
      · simpa using hoff.1
      · simpa using hoff.2
  · intro hoff
    rw [NotificationManager.switch_failed, if_pos (Or.inr hoff)]

/-- C10 witness: with switching-action notifications off, a failing sender is
never contacted and `Ok` is returned. -/
theorem C10_witness :
    NotificationManager.switch_failed ⟨true, true, false⟩
      (fun _ _ => Except.error "sender should not be called") "Device" "err" =
      (Except.ok (), []) :=
  (C10_switch_failed_gating ⟨true, true, false⟩
    (fun _ _ => Except.error "sender should not be called") "Device" "err").2.1
    rfl

/-! ### Configuration types and migration (src/config/types.rs) -/

/-- `NotificationConfigHelper` from src/config/types.rs: the deserialization
helper preserving presence information (`None` means the field was absent in
the TOML source). -/
structure NotificationConfigHelper where
  show_device_availability : Option Bool
  show_switching_actions : Bool
  show_device_changes : Option Bool
deriving DecidableEq, Repr

/-- `NotificationConfig` from src/config/types.rs. -/
structure NotificationConfig where
  show_device_availability : Bool
  show_switching_actions : Bool
  show_device_changes : Option Bool
deriving DecidableEq, Repr

/-- `NotificationConfig::migrate_with_presence_info`: migrate the legacy value
only when the new field was not explicitly present; always clear the legacy
field. -/
def NotificationConfig.migrate_with_presence_info (c : NotificationConfig)
    (wasExplicitlySet : Bool) : NotificationConfig :=
  let c1 :=
    match c.show_device_changes with
    | some oldValue =>
      if !wasExplicitlySet then { c with show_device_availability := oldValue }
      else c
    | none => c
  { c1 with show_device_changes := none }

/-- `NotificationConfig::migrate_from_old_config`: the conservative external
migration (migrate only when the old field is set, the new field is false and
the old value is true); always clear the legacy field. -/
def NotificationConfig.migrate_from_old_config (c : NotificationConfig) :
    NotificationConfig :=
  let c1 :=
    match c.show_device_changes with
    | some oldValue =>
      if !c.show_device_availability && oldValue then
        { c with show_device_availability := oldValue }
      else c
    | none => c
  { c1 with show_device_changes := none }

/-- The `From<NotificationConfigHelper>` conversion applied by serde during
deserialization (src/config/types.rs lines 55-68): default the new field to
false when absent, then run the presence-aware migration. -/
def notificationConfigFromHelper (h : NotificationConfigHelper) :
    NotificationConfig :=
  NotificationConfig.migrate_with_presence_info
    { show_device_availability := h.show_device_availability.getD false,
      show_switching_actions := h.show_switching_actions,
      show_device_changes := h.show_device_changes }
    h.show_device_availability.isSome

/-- The notification section produced by `Config::load` (and
`ConfigLoader::load_config`): deserialization through the helper followed by
the additional `migrate_from_old_config` call. -/
def loadNotifications (h : NotificationConfigHelper) : NotificationConfig :=
  (notificationConfigFromHelper h).migrate_from_old_config

/-! ### C7 -/

/-- C7: an explicitly present `show_device_availability` survives loading
regardless of the legacy `show_device_changes`; when absent, a present legacy
value becomes `show_device_availability`; and `show_device_changes` is always
`none` after loading. -/
theorem C7_notification_migration (h : NotificationConfigHelper) :
    (∀ v : Bool, h.show_device_availability = some v →
      (loadNotifications h).show_device_availability = v) ∧
    (h.show_device_availability = none →
      ∀ w : Bool, h.show_device_changes = some w →
        (loadNotifications h).show_device_availability = w) ∧
    (loadNotifications h).show_device_changes = none := by
  rcases h with ⟨avail, sw, changes⟩
  refine ⟨?_, ?_, ?_⟩
  · intro v hv
    cases hv
    cases changes <;>
      simp [loadNotifications, notificationConfigFromHelper,
        NotificationConfig.migrate_with_presence_info,
        NotificationConfig.migrate_from_old_config]
  · intro hnone w hw
    cases hnone
    cases hw
    by_cases hwv : w = true <;>
      simp [loadNotifications, notificationConfigFromHelper,
        NotificationConfig.migrate_with_presence_info,
        NotificationConfig.migrate_from_old_config, hwv]
  · cases avail <;> cases changes <;>
      simp [loadNotifications, notificationConfigFromHelper,
        NotificationConfig.migrate_with_presence_info,
        NotificationConfig.migrate_from_old_config]

/-- C7 witness: a source with both the explicit new field (false) and the
legacy field (true) keeps the explicit value and clears the legacy field. -/
theorem C7_witness :
    (loadNotifications ⟨some false, true, some true⟩).show_device_availability =
      false ∧
    (loadNotifications ⟨some false, true, some true⟩).show_device_changes =
      none :=
  ⟨(C7_notification_migration ⟨some false, true, some true⟩).1 false rfl,
   (C7_notification_migration ⟨some false, true, some true⟩).2.2⟩

/-! ### C8 -/

/-- `GeneralConfig` from src/config/types.rs: it has exactly the fields
`check_interval_ms`, `log_level` and `daemon_mode` (no `poll_interval_ms`). -/
structure GeneralConfig where
  check_interval_ms : Nat
  log_level : String
  daemon_mode : Bool
deriving DecidableEq, Repr

/-- `Config` from src/config/types.rs. -/
structure Config where
  general : GeneralConfig
  notifications : NotificationConfig
  output_devices : List DeviceRule
  input_devices : List DeviceRule
deriving DecidableEq, Repr

/-- The post-parse processing of `Config::load` (src/config/types.rs lines
176-200) on a successfully parsed configuration: the only transformation is
the notification migration; the general section is returned as parsed. -/
def Config.load_from_parsed (c : Config) : Config :=
  { c with notifications := c.notifications.migrate_from_old_config }

/-- The per-turn sleep of `AudioDeviceService::run_main_loop`
(src/service/service_v2.rs line 126): `check_interval_ms.max(100)`. -/
def run_main_loop_sleep_ms (c : Config) : Nat :=
  max c.general.check_interval_ms 100

/-- A parsed configuration with `check_interval_ms = 0`, mirroring the
edge-case configuration of the repository test
`tests/config_loader_integration_tests.rs::test_config_validation`. -/
def cfgZero : Config :=
  ⟨⟨0, "trace", false⟩, ⟨true, true, none⟩, [], []⟩

/-- C8 counterexample: loading a configuration whose `check_interval_ms` is 0
returns 0 — no clamping to 100 happens at load time (the repository test
asserts exactly this value after loading). -/
theorem C8_counterexample :
    (Config.load_from_parsed cfgZero).general.check_interval_ms = 0 ∧
    ¬ 100 ≤ (Config.load_from_parsed cfgZero).general.check_interval_ms := by
  refine ⟨rfl, by decide⟩

/-- C8 (amended): `Config::load` leaves the general section untouched (no
clamping and no `poll_interval_ms` relation is established), while the
service loop clamps only its per-turn sleep to
`max check_interval_ms 100 ≥ 100`. -/
theorem C8_load_no_clamp (c : Config) :
    (Config.load_from_parsed c).general = c.general ∧
    run_main_loop_sleep_ms c = max c.general.check_interval_ms 100 ∧
    100 ≤ run_main_loop_sleep_ms c := by
  refine ⟨rfl, rfl, ?_⟩
  rw [run_main_loop_sleep_ms]
  omega

end AudioMonitor
